import Mathlib

/-!
Shallow embedding of the session-orchestration core of the `bro` repository:
the LLM-assisted CLI retry engine, the task-agent propose/confirm/cancel
state machine (`src/agent/task_agent.py`), the sticky intent router
(`src/agent/chat_agent.py`), and the session-inactivity monitor.

External collaborators (the LLM, the `dimaist-cli` subprocess, the notes
backend, wall-clock time) are modelled as oracle functions passed in as
parameters; a `none` / `.error` value of an oracle models the corresponding
Python call raising an exception.
-/

namespace Bro

/-- `MAX_CLI_RETRIES` from `src/agent/constants.py`. -/
def MAX_CLI_RETRIES : Nat := 3

/-- `SESSION_TIMEOUT` from `src/agent/settings.py` (seconds). -/
def SESSION_TIMEOUT : ℚ := 60

/-- `SESSION_WARNING_THRESHOLD` from `src/agent/settings.py` (seconds). -/
def SESSION_WARNING_THRESHOLD : ℚ := 55

/-- `Result = Ok[T] | Err` from `src/agent/result.py`. -/
inductive Result (α : Type) where
  | Ok (value : α)
  | Err (error : String)
deriving Repr, DecidableEq

/-- CLI JSON output (`dict | list` in `DimaistCLI.run`): either a JSON array
(items kept abstract as their serialized form) or any non-array JSON value. -/
inductive CliData where
  | arr (items : List String)
  | obj (value : String)
deriving Repr, DecidableEq

/-- The structured-output schema `FixOutput` local to `TaskAgent._fix_cli_args`. -/
structure FixOutput where
  can_fix : Bool
  cli_args : Option (List String)
deriving Repr, DecidableEq

/-- Embedding of `TaskAgent._fix_cli_args` (src/agent/task_agent.py).
`llmFix` is the oracle for the structured LLM call; `none` models the call
raising an exception.  The Python code returns `result.cli_args` only when
the result parses, `can_fix` is true and `cli_args` is truthy (non-`None`
and non-empty); in every other case it returns `None`. -/
def fix_cli_args (llmFix : List String → String → Option FixOutput)
    (cli_args : List String) (error : String) : Option (List String) :=
  match llmFix cli_args error with
  | some r =>
    match r.cli_args with
    | some fixed => if r.can_fix && !fixed.isEmpty then some fixed else none
    | none => none
  | none => none

/-- Instrumented outcome of one `_run_cli_with_retry` call: the returned
`Result` plus, as ghost state, the argument vector of every tool invocation
made and the `(args, error)` pair of every repair request issued. -/
structure RetryRun (α : Type) where
  result : Result α
  invocations : List (List String)
  fixRequests : List (List String × String)
deriving Repr, DecidableEq

/-- The `for attempt in range(MAX_CLI_RETRIES)` loop of
`TaskAgent._run_cli_with_retry`.  `tryCli attempt args` is the oracle for
`TaskAgent._try_cli` (the CLI subprocess), indexed by the invocation number
so that the external world may answer differently on each invocation.
The fuel argument equals `MAX_CLI_RETRIES - attempt`; exhausting it is the
(unreachable) `return Err("Max retries exceeded")` after the loop.
The `fixed.isEmpty` test mirrors Python's `if not fixed:` truthiness check. -/
def retryLoop {α : Type} (tryCli : Nat → List String → Result α)
    (llmFix : List String → String → Option FixOutput) :
    Nat → Nat → List String → RetryRun α
  | 0, _, _ => ⟨.Err "Max retries exceeded", [], []⟩
  | fuel + 1, attempt, cli_args =>
    match tryCli attempt cli_args with
    | .Ok v => ⟨.Ok v, [cli_args], []⟩
    | .Err error =>
      if attempt = MAX_CLI_RETRIES - 1 then
        ⟨.Err error, [cli_args], []⟩
      else
        match fix_cli_args llmFix cli_args error with
        | none => ⟨.Err error, [cli_args], [(cli_args, error)]⟩
        | some fixed =>
          if fixed.isEmpty then
            ⟨.Err error, [cli_args], [(cli_args, error)]⟩
          else
            let rest := retryLoop tryCli llmFix fuel (attempt + 1) fixed
            ⟨rest.result, cli_args :: rest.invocations,
              (cli_args, error) :: rest.fixRequests⟩

/-- Embedding of `TaskAgent._run_cli_with_retry` (src/agent/task_agent.py). -/
def run_cli_with_retry {α : Type} (tryCli : Nat → List String → Result α)
    (llmFix : List String → String → Option FixOutput)
    (cli_args : List String) : RetryRun α :=
  retryLoop tryCli llmFix MAX_CLI_RETRIES 0 cli_args

/-- The chain property "each later invocation is the repair of the previous
failing one": `invocations.get (i+1)` is the corrected command produced by
`fix_cli_args` for `invocations.get i` and its error, attempt numbers
starting at `attempt`. -/
def CorrectionChain {α : Type} (tryCli : Nat → List String → Result α)
    (llmFix : List String → String → Option FixOutput) :
    Nat → List (List String) → Prop
  | _, [] => True
  | _, [_] => True
  | attempt, a :: b :: rest =>
    (∃ e, tryCli attempt a = .Err e ∧ fix_cli_args llmFix a e = some b) ∧
      CorrectionChain tryCli llmFix (attempt + 1) (b :: rest)

/-- `Action` enum from `src/agent/task_agent.py`. -/
inductive Action where
  | none
  | propose
  | confirm
  | cancel
  | query
  | exit
deriving Repr, DecidableEq

/-- `TaskAgentOutput` structured-output schema from `src/agent/task_agent.py`. -/
structure TaskAgentOutput where
  response : String
  action : Action
  cli_args : Option (List String) := Option.none
deriving Repr, DecidableEq

/-- `Message` dataclass from `src/agent/task_agent.py`. -/
structure Message where
  role : String
  content : String
deriving Repr, DecidableEq

/-- `TaskAgentState` dataclass from `src/agent/task_agent.py`. -/
structure TaskAgentState where
  session_id : String
  messages : List Message := []
  active : Bool := false
  pending_command : Option (List String) := Option.none
deriving Repr, DecidableEq

/-- `AgentResponse` dataclass from `src/agent/task_agent.py`. -/
structure AgentResponse where
  text : String
  exit_reason : Option String := Option.none
  history_context : Option String := Option.none
deriving Repr, DecidableEq

/-- `AgentResponse.should_exit`. -/
def AgentResponse.should_exit (r : AgentResponse) : Bool :=
  r.exit_reason.isSome

/-- `AgentResponse.history_text`. -/
def AgentResponse.history_text (r : AgentResponse) : String :=
  match r.history_context with
  | some c => c ++ "\n\n" ++ r.text
  | Option.none => r.text

/-- Python truthiness of an `list[str] | None` value (`None` and `[]` are
falsy); used by the `if not ...` checks on `cli_args` / `pending_command`. -/
def optListTruthy (o : Option (List String)) : Bool :=
  match o with
  | some l => !l.isEmpty
  | Option.none => false

/-- Result of one `TaskAgent._handle_action` call: the agent's `_state`
afterwards, the returned `AgentResponse`, and (ghost) the argument vectors
of the tool invocations performed. -/
structure ActionEffect where
  state : Option TaskAgentState
  response : AgentResponse
  invocations : List (List String)
deriving Repr, DecidableEq

/-- Embedding of `TaskAgent._handle_action` (src/agent/task_agent.py).
Oracles: `tryCli`/`llmFix` as in `run_cli_with_retry`; `summarize` models
the LLM call `_summarize_query_results`; `jsonDump` models `json.dumps` of
the (truncated) query result.  The debug-only fields `_last_cli_command` /
`_last_cli_result` are omitted.  A `none` state models a falsy
`self._state` (the `return AgentResponse("Session error.", ...)` branch). -/
def handle_action (tryCli : Nat → List String → Result CliData)
    (llmFix : List String → String → Option FixOutput)
    (summarize : CliData → String) (jsonDump : CliData → String)
    (st : Option TaskAgentState) (output : TaskAgentOutput) : ActionEffect :=
  match st with
  | Option.none => ⟨Option.none, ⟨"Session error.", some "no_session", Option.none⟩, []⟩
  | some s =>
    match output.action with
    | .none => ⟨some s, ⟨output.response, Option.none, Option.none⟩, []⟩
    | .propose =>
      if optListTruthy output.cli_args then
        ⟨some { s with pending_command := output.cli_args },
          ⟨output.response, Option.none, Option.none⟩, []⟩
      else
        ⟨some s, ⟨output.response, Option.none, Option.none⟩, []⟩
    | .confirm =>
      if optListTruthy s.pending_command then
        match s.pending_command with
        | some p =>
          let run := run_cli_with_retry tryCli llmFix p
          let s' := { s with pending_command := Option.none }
          match run.result with
          | .Err error =>
            ⟨some s', ⟨"Command failed: " ++ error ++ ". What else?",
              Option.none, Option.none⟩, run.invocations⟩
          | .Ok _ =>
            ⟨some s', ⟨output.response, Option.none, Option.none⟩, run.invocations⟩
        | Option.none =>
          ⟨some s, ⟨"Nothing to confirm. What would you like to do?",
            Option.none, Option.none⟩, []⟩
      else
        ⟨some s, ⟨"Nothing to confirm. What would you like to do?",
          Option.none, Option.none⟩, []⟩
    | .cancel =>
      ⟨some { s with pending_command := Option.none },
        ⟨output.response, Option.none, Option.none⟩, []⟩
    | .query =>
      match output.cli_args with
      | some args =>
        if args.isEmpty then
          ⟨some s, ⟨output.response, Option.none, Option.none⟩, []⟩
        else
          let run := run_cli_with_retry tryCli llmFix args
          match run.result with
          | .Err error =>
            ⟨some s, ⟨"Couldn't fetch tasks: " ++ error, Option.none, Option.none⟩,
              run.invocations⟩
          | .Ok data =>
            match data with
            | .arr [] => ⟨some s, ⟨"No tasks found.", Option.none, Option.none⟩, run.invocations⟩
            | _ =>
              let summary := summarize data
              let cli_cmd := String.intercalate " " args
              let limited := match data with
                | .arr items => CliData.arr (items.take 20)
                | d => d
              let history_context :=
                "[CLI: " ++ cli_cmd ++ "]\n[Result: " ++ jsonDump limited ++ "]"
              ⟨some s, ⟨summary, Option.none, some history_context⟩, run.invocations⟩
      | Option.none => ⟨some s, ⟨output.response, Option.none, Option.none⟩, []⟩
    | .exit =>
      ⟨some { s with active := false },
        ⟨output.response, some "user_exit", Option.none⟩, []⟩

/-- Embedding of `TaskAgent.confirm` (the direct UI button path, no LLM).
`cliRun` is the oracle for the single `self._cli.run(*pending)` call;
`.Err` models the call raising an exception. -/
def TaskAgent.confirm (cliRun : List String → Result CliData)
    (st : Option TaskAgentState) : ActionEffect :=
  match st with
  | Option.none => ⟨Option.none, ⟨"Nothing to confirm.", Option.none, Option.none⟩, []⟩
  | some s =>
    if optListTruthy s.pending_command then
      match s.pending_command with
      | some p =>
        match cliRun p with
        | .Ok _ =>
          ⟨some { s with pending_command := Option.none },
            ⟨"Done! Anything else?", Option.none, Option.none⟩, [p]⟩
        | .Err e =>
          ⟨some { s with pending_command := Option.none },
            ⟨"Failed: " ++ e ++ ". What else can I help with?",
              Option.none, Option.none⟩, [p]⟩
      | Option.none =>
        ⟨some s, ⟨"Nothing to confirm.", Option.none, Option.none⟩, []⟩
    else
      ⟨some s, ⟨"Nothing to confirm.", Option.none, Option.none⟩, []⟩

/-- Embedding of `TaskAgent.decline` (src/agent/task_agent.py): only a falsy
`self._state` yields "Nothing to cancel."; otherwise the pending command is
cleared unconditionally and the fixed "Cancelled." response is returned. -/
def TaskAgent.decline (st : Option TaskAgentState) :
    Option TaskAgentState × AgentResponse :=
  match st with
  | Option.none => (Option.none, ⟨"Nothing to cancel.", Option.none, Option.none⟩)
  | some s =>
    (some { s with pending_command := Option.none },
      ⟨"Cancelled. What would you like to do?", Option.none, Option.none⟩)

/-- Embedding of `TaskAgent.process_message` (src/agent/task_agent.py).
`llmOut` is the oracle for `_call_llm` on this turn (`none` models the call
raising); the system-prompt construction has no observable effect here and
is omitted. -/
def process_message (llmOut : Option TaskAgentOutput)
    (tryCli : Nat → List String → Result CliData)
    (llmFix : List String → String → Option FixOutput)
    (summarize : CliData → String) (jsonDump : CliData → String)
    (st : Option TaskAgentState) (user_message : String) :
    Option TaskAgentState × AgentResponse × List (List String) :=
  match st with
  | Option.none =>
    (Option.none, ⟨"Session not active.", some "no_session", Option.none⟩, [])
  | some s =>
    let s1 := { s with messages := s.messages ++ [⟨"user", user_message⟩] }
    match llmOut with
    | Option.none =>
      (some s1,
        ⟨"I'm having trouble processing that. Could you try again?",
          Option.none, Option.none⟩, [])
    | some output =>
      let eff := handle_action tryCli llmFix summarize jsonDump (some s1) output
      match eff.state with
      | some s2 =>
        (some { s2 with messages := s2.messages ++ [⟨"assistant", eff.response.history_text⟩] },
          eff.response, eff.invocations)
      | Option.none => (Option.none, eff.response, eff.invocations)

/-- `Intent` StrEnum from `src/ai/models.py`. -/
inductive Intent where
  | direct_response
  | web_search
  | end_dialog
  | task_management
  | notes
deriving Repr, DecidableEq

/-- The StrEnum string value of an `Intent`. -/
def Intent.toStr : Intent → String
  | .direct_response => "direct_response"
  | .web_search => "web_search"
  | .end_dialog => "end_dialog"
  | .task_management => "task_management"
  | .notes => "notes"

/-- `IntentClassification` from `src/ai/models.py`, restricted to the fields
the router reads (`search_query`/`response` are unused by `_process_input`). -/
structure IntentClassification where
  intent : Intent
  confidence : ℚ
deriving Repr, DecidableEq

/-- The `BasidianAgent` handle as seen by the router: only its existence and
`is_active` flag matter to routing; its conversation state is behind the
`basProc` oracle. -/
structure BasidianRec where
  active : Bool
deriving Repr, DecidableEq

/-- The routing-relevant state of a `ChatAgent` (src/agent/chat_agent.py):
the optional sub-agent handles, the current response metadata, and the
`excluded_agents` setting.  `task_agent = some s` models a live `TaskAgent`
whose `_state` is `s` (its `__init__` always sets `_state`). -/
structure ChatState where
  session_id : String
  excluded_agents : List String
  task_agent : Option TaskAgentState
  basidian_agent : Option BasidianRec
  current_intent : Option String
  current_response_type : String
deriving Repr, DecidableEq

/-- Embedding of `ChatAgent._route_to_task_agent` (src/agent/chat_agent.py):
lazily construct the `TaskAgent` (fresh inactive state for this session),
`activate()` it, process the message, and discard the handle when the
response signals exit.  The Python `except` branch (`Err("Sorry, ...")`) is
unreachable here because the embedded `process_message` is total: every
exception it can absorb is already modelled by its oracles. -/
def route_to_task_agent (llmOut : Option TaskAgentOutput)
    (tryCli : Nat → List String → Result CliData)
    (llmFix : List String → String → Option FixOutput)
    (summarize : CliData → String) (jsonDump : CliData → String)
    (session_id : String) (ta : Option TaskAgentState) (text : String) :
    Option TaskAgentState × Result (Option String) × List (List String) :=
  let ta0 := match ta with
    | Option.none => ({ session_id := session_id } : TaskAgentState)
    | some s => s
  let ta1 := { ta0 with active := true }
  match process_message llmOut tryCli llmFix summarize jsonDump (some ta1) text with
  | (st, response, tr) =>
    if response.should_exit then (Option.none, .Ok (some response.text), tr)
    else (st, .Ok (some response.text), tr)

/-- Embedding of `ChatAgent._route_to_basidian_agent`: lazily construct and
activate the handle; `basProc` is the oracle for
`BasidianAgent.process_message` (`none` models it raising, which the router
converts to an `Err`); an exit response discards the handle. -/
def route_to_basidian_agent (basProc : String → Option AgentResponse)
    (ba : Option BasidianRec) (text : String) :
    Option BasidianRec × Result (Option String) :=
  let _ := ba
  let b1 : BasidianRec := ⟨true⟩
  match basProc text with
  | Option.none => (some b1, .Err "Sorry, I couldn't process that notes request.")
  | some response =>
    if response.should_exit then (Option.none, .Ok (some response.text))
    else (some b1, .Ok (some response.text))

/-- Instrumented outcome of one `ChatAgent._process_input` call: the updated
chat state, the returned `Result`, and (ghost) how many times the intent
classifier was invoked and which tool invocations occurred. -/
structure ProcessOut where
  chat : ChatState
  result : Result (Option String)
  classifierCalls : Nat
  invocations : List (List String)
deriving Repr, DecidableEq

/-- Whether a task-agent handle would capture this turn via sticky routing:
`self._task_agent and self._task_agent.is_active and task_agent_enabled`. -/
def taskSticky (cs : ChatState) : Bool :=
  (match cs.task_agent with
   | some s => s.active
   | Option.none => false) && !(cs.excluded_agents.contains "task")

/-- Sticky condition for the basidian handle. -/
def basidianSticky (cs : ChatState) : Bool :=
  (match cs.basidian_agent with
   | some b => b.active
   | Option.none => false) && !(cs.excluded_agents.contains "basidian")

/-- Embedding of `ChatAgent._process_input` (src/agent/chat_agent.py).
`classify` is the oracle for `classify_intent`; `.error e` models the call
raising an exception whose string form is `e`. -/
def process_input (classify : String → Except String IntentClassification)
    (llmOut : Option TaskAgentOutput)
    (tryCli : Nat → List String → Result CliData)
    (llmFix : List String → String → Option FixOutput)
    (summarize : CliData → String) (jsonDump : CliData → String)
    (basProc : String → Option AgentResponse)
    (cs : ChatState) (text : String) : ProcessOut :=
  let task_agent_enabled := !(cs.excluded_agents.contains "task")
  let basidian_agent_enabled := !(cs.excluded_agents.contains "basidian")
  if taskSticky cs then
    let cs1 := { cs with
      current_intent := some (Intent.toStr Intent.task_management),
      current_response_type := "task_response" }
    match route_to_task_agent llmOut tryCli llmFix summarize jsonDump
        cs1.session_id cs1.task_agent text with
    | (ta, r, tr) => ⟨{ cs1 with task_agent := ta }, r, 0, tr⟩
  else if basidianSticky cs then
    let cs1 := { cs with
      current_intent := some (Intent.toStr Intent.notes),
      current_response_type := "notes_response" }
    match route_to_basidian_agent basProc cs1.basidian_agent text with
    | (ba, r) => ⟨{ cs1 with basidian_agent := ba }, r, 0, []⟩
  else
    match classify text with
    | .error e =>
      ⟨{ cs with current_intent := Option.none, current_response_type := "error" },
        .Err ("Configuration error: " ++ e), 1, []⟩
    | .ok classification =>
      let cs1 := { cs with
        current_intent := some (Intent.toStr classification.intent),
        current_response_type := "llm_response" }
      if classification.intent = Intent.task_management && task_agent_enabled then
        let cs2 := { cs1 with current_response_type := "task_response" }
        match route_to_task_agent llmOut tryCli llmFix summarize jsonDump
            cs2.session_id cs2.task_agent text with
        | (ta, r, tr) => ⟨{ cs2 with task_agent := ta }, r, 1, tr⟩
      else if classification.intent = Intent.notes && basidian_agent_enabled then
        let cs2 := { cs1 with current_response_type := "notes_response" }
        match route_to_basidian_agent basProc cs2.basidian_agent text with
        | (ba, r) => ⟨{ cs2 with basidian_agent := ba }, r, 1, []⟩
      else
        ⟨cs1, .Ok Option.none, 1, []⟩

/-- Embedding of `ChatAgent.on_user_turn_completed`: run `_process_input`
and interpret the result; the second component is the text delivered via
`_speak_and_stop` (`none` when the default LLM flow is allowed to continue). -/
def on_user_turn_completed (classify : String → Except String IntentClassification)
    (llmOut : Option TaskAgentOutput)
    (tryCli : Nat → List String → Result CliData)
    (llmFix : List String → String → Option FixOutput)
    (summarize : CliData → String) (jsonDump : CliData → String)
    (basProc : String → Option AgentResponse)
    (cs : ChatState) (text : String) : ProcessOut × Option String :=
  let po := process_input classify llmOut tryCli llmFix summarize jsonDump basProc cs text
  (po,
    match po.result with
    | .Err error => some error
    | .Ok Option.none => Option.none
    | .Ok (some response) => some response)

/-- `NotificationType` payloads sent by `_send_session_notification` that the
monitor can emit. -/
inductive Notification where
  | sessionWarning (remaining_seconds : ℤ)
  | sessionTimeout (reason : String) (idle_duration : ℚ)
deriving Repr, DecidableEq

/-- Python `int()` truncation toward zero, applied to the float
`SESSION_TIMEOUT - elapsed` when building the warning payload. -/
def pythonInt (q : ℚ) : ℤ :=
  if q < 0 then ⌈q⌉ else ⌊q⌋

/-- The inactivity-tracking fields of `ChatAgent`:
`_last_activity_time: float | None` and `_session_warning_sent`. -/
structure TimeoutState where
  last_activity_time : Option ℚ
  session_warning_sent : Bool
deriving Repr, DecidableEq

/-- `ChatAgent.start_session_timer`: record the current time and clear the
warning flag (session-id bookkeeping and task spawning omitted). -/
def start_session_timer (now : ℚ) : TimeoutState :=
  ⟨some now, false⟩

/-- `ChatAgent.on_turn_completed`: reset `_last_activity_time` to now and
clear `_session_warning_sent`. -/
def on_turn_completed (now : ℚ) (s : TimeoutState) : TimeoutState :=
  let _ := s
  ⟨some now, false⟩

/-- One iteration of the `while True` loop in
`ChatAgent._monitor_session_timeout`, polled at wall-clock time `now`:
the notifications emitted this iteration, the updated state, and whether the
loop `break`s.  `if not self._last_activity_time: break` treats both `None`
and `0.0` as falsy. -/
def pollStep (now : ℚ) (s : TimeoutState) : List Notification × TimeoutState × Bool :=
  match s.last_activity_time with
  | Option.none => ([], s, true)
  | some t =>
    if t = 0 then ([], s, true)
    else
      let elapsed := now - t
      let warn : List Notification × TimeoutState :=
        if SESSION_WARNING_THRESHOLD ≤ elapsed ∧ s.session_warning_sent = false then
          ([Notification.sessionWarning (pythonInt (SESSION_TIMEOUT - elapsed))],
            { s with session_warning_sent := true })
        else ([], s)
      if SESSION_TIMEOUT ≤ elapsed then
        (warn.1 ++ [Notification.sessionTimeout "inactivity" elapsed], warn.2, true)
      else (warn.1, warn.2, false)

/-- The monitor loop of `_monitor_session_timeout` run over a finite schedule
of poll times (one entry per 0.5 s sleep wake-up), with no intervening
turn-completion events: the concatenated notifications it emits.
Termination of the Python loop is the schedule being cut off at the first
`break`. -/
def runMonitor : TimeoutState → List ℚ → List Notification
  | _, [] => []
  | s, now :: rest =>
    match pollStep now s with
    | (ns, s1, stop) => if stop then ns else ns ++ runMonitor s1 rest

/-- Number of warning notifications in an emission trace. -/
def countWarnings (l : List Notification) : Nat :=
  l.countP fun n => match n with
    | .sessionWarning _ => true
    | _ => false

/-- Number of timeout notifications in an emission trace. -/
def countTimeouts (l : List Notification) : Nat :=
  l.countP fun n => match n with
    | .sessionTimeout _ _ => true
    | _ => false

section RetryLemmas

variable {α : Type} (tryCli : Nat → List String → Result α)
variable (llmFix : List String → String → Option FixOutput)

theorem retryLoop_len : ∀ fuel attempt args,
    (retryLoop tryCli llmFix fuel attempt args).invocations.length ≤ fuel := by
  intro fuel
  induction fuel with
  | zero => intro attempt args; simp [retryLoop]
  | succ n ih =>
    intro attempt args
    simp only [retryLoop]
    cases h : tryCli attempt args with
    | Ok v => simp
    | Err e =>
      by_cases hfin : attempt = MAX_CLI_RETRIES - 1
      · simp [hfin]
      · cases hfix : fix_cli_args llmFix args e with
        | none => simp [hfin, hfix]
        | some fixed =>
          by_cases hemp : fixed.isEmpty
          · simp [hfin, hfix, hemp]
          · simp only [hfin, hfix, hemp, if_neg, if_false]
            simpa using Nat.succ_le_succ (ih (attempt + 1) fixed)

theorem retryLoop_head : ∀ fuel attempt args,
    (retryLoop tryCli llmFix (fuel + 1) attempt args).invocations.head? = some args := by
  intro fuel attempt args
  simp only [retryLoop]
  cases h : tryCli attempt args with
  | Ok v => simp
  | Err e =>
    by_cases hfin : attempt = MAX_CLI_RETRIES - 1
    · simp [hfin]
    · cases hfix : fix_cli_args llmFix args e with
      | none => simp [hfin, hfix]
      | some fixed =>
        by_cases hemp : fixed.isEmpty
        · simp [hfin, hfix, hemp]
        · simp [hfin, hfix, hemp]

theorem retryLoop_ne_nil (fuel attempt : Nat) (args : List String) :
    (retryLoop tryCli llmFix (fuel + 1) attempt args).invocations ≠ [] := by
  intro hnil
  have := retryLoop_head tryCli llmFix fuel attempt args
  rw [hnil] at this
  simp at this

theorem retryLoop_ok (fuel attempt : Nat) (args : List String) (v : α)
    (h : tryCli attempt args = .Ok v) :
    retryLoop tryCli llmFix (fuel + 1) attempt args = ⟨.Ok v, [args], []⟩ := by
  simp [retryLoop, h]

theorem retryLoop_final_err (fuel : Nat) (args : List String) (e : String)
    (h : tryCli (MAX_CLI_RETRIES - 1) args = .Err e) :
    retryLoop tryCli llmFix (fuel + 1) (MAX_CLI_RETRIES - 1) args =
      ⟨.Err e, [args], []⟩ := by
  simp [retryLoop, h]

theorem retryLoop_abort (fuel attempt : Nat) (args : List String) (e : String)
    (hfin : attempt ≠ MAX_CLI_RETRIES - 1)
    (h : tryCli attempt args = .Err e)
    (hfix : fix_cli_args llmFix args e = none) :
    retryLoop tryCli llmFix (fuel + 1) attempt args =
      ⟨.Err e, [args], [(args, e)]⟩ := by
  simp [retryLoop, h, hfin, hfix]

theorem run_cli_with_retry_head (args : List String) :
    (run_cli_with_retry tryCli llmFix args).invocations.head? = some args :=
  retryLoop_head tryCli llmFix 2 0 args

theorem retryLoop_chain : ∀ fuel attempt args,
    CorrectionChain tryCli llmFix attempt
      (retryLoop tryCli llmFix fuel attempt args).invocations := by
  intro fuel
  induction fuel with
  | zero => intro attempt args; simp [retryLoop, CorrectionChain]
  | succ n ih =>
    intro attempt args
    simp only [retryLoop]
    cases h : tryCli attempt args with
    | Ok v => simp [CorrectionChain]
    | Err e =>
      by_cases hfin : attempt = MAX_CLI_RETRIES - 1
      · simp [hfin, CorrectionChain]
      · cases hfix : fix_cli_args llmFix args e with
        | none => simp [hfin, hfix, CorrectionChain]
        | some fixed =>
          by_cases hemp : fixed.isEmpty
          · simp [hfin, hfix, hemp, CorrectionChain]
          · simp only [hfin, hfix, hemp, if_neg, if_false]
            have hrec := ih (attempt + 1) fixed
            cases hinv : (retryLoop tryCli llmFix n (attempt + 1) fixed).invocations with
            | nil => simp [hinv, CorrectionChain]
            | cons b rest =>
              have hb : b = fixed := by
                rcases n with _ | m
                · simp [retryLoop] at hinv
                · have := retryLoop_head tryCli llmFix m (attempt + 1) fixed
                  rw [hinv] at this
                  simpa using this
              subst hb
              rw [hinv] at hrec
              exact ⟨⟨e, h, hfix⟩, hrec⟩

theorem retryLoop_err_exhausts
    (hfix_all : ∀ a e, ∃ f, f.isEmpty = false ∧ fix_cli_args llmFix a e = some f) :
    ∀ fuel attempt args e,
      (retryLoop tryCli llmFix fuel attempt args).result = .Err e →
      attempt + fuel = MAX_CLI_RETRIES →
      (retryLoop tryCli llmFix fuel attempt args).invocations.length = fuel := by
  intro fuel
  induction fuel with
  | zero => intro attempt args e _ _; simp [retryLoop]
  | succ n ih =>
    intro attempt args e hres htot
    simp only [retryLoop] at hres ⊢
    cases h : tryCli attempt args with
    | Ok v => rw [h] at hres; simp at hres
    | Err err =>
      rw [h] at hres
      by_cases hfin : attempt = MAX_CLI_RETRIES - 1
      · simp [hfin]
        omega
      · obtain ⟨f, hfe, hf⟩ := hfix_all args err
        simp [hfin, hf, hfe] at hres
        simp [hfin, hf, hfe]
        exact ih (attempt + 1) f e hres (by omega)

end RetryLemmas

/-- C1: for every command and every sequence of tool-call failures with fewer
than `MAX_CLI_RETRIES` (3) failures, where each repair request returns a
corrected command, `_run_cli_with_retry` applies each correction and retries
(the invocation trace is a correction chain), makes at most `MAX_CLI_RETRIES`
tool invocations in total (and at least one), terminates at the first
success, and on the final attempt returns a failure as `Err` with no repair
request issued; when every repair yields a correction, an `Err` outcome can
only arise with the full `MAX_CLI_RETRIES` invocations spent. -/
theorem C1_retry_engine {α : Type} (tryCli : Nat → List String → Result α)
    (llmFix : List String → String → Option FixOutput) (cli_args : List String) :
    ((run_cli_with_retry tryCli llmFix cli_args).invocations.length ≤ MAX_CLI_RETRIES ∧
      (run_cli_with_retry tryCli llmFix cli_args).invocations ≠ []) ∧
    (∀ v, tryCli 0 cli_args = .Ok v →
      run_cli_with_retry tryCli llmFix cli_args = ⟨.Ok v, [cli_args], []⟩) ∧
    CorrectionChain tryCli llmFix 0 (run_cli_with_retry tryCli llmFix cli_args).invocations ∧
    (∀ fuel args e, tryCli (MAX_CLI_RETRIES - 1) args = .Err e →
      retryLoop tryCli llmFix (fuel + 1) (MAX_CLI_RETRIES - 1) args =
        ⟨.Err e, [args], []⟩) ∧
    ((∀ a e, ∃ f, f.isEmpty = false ∧ fix_cli_args llmFix a e = some f) →
      ∀ e, (run_cli_with_retry tryCli llmFix cli_args).result = .Err e →
        (run_cli_with_retry tryCli llmFix cli_args).invocations.length = MAX_CLI_RETRIES) := by
  refine ⟨⟨retryLoop_len tryCli llmFix MAX_CLI_RETRIES 0 cli_args, ?_⟩, ?_, ?_, ?_, ?_⟩
  · exact retryLoop_ne_nil tryCli llmFix 2 0 cli_args
  · intro v hv
    exact retryLoop_ok tryCli llmFix 2 0 cli_args v hv
  · exact retryLoop_chain tryCli llmFix MAX_CLI_RETRIES 0 cli_args
  · intro fuel args e he
    exact retryLoop_final_err tryCli llmFix fuel args e he
  · intro hfix_all e hres
    exact retryLoop_err_exhausts tryCli llmFix hfix_all MAX_CLI_RETRIES 0 cli_args e hres rfl

/-- Witness for C1 at concrete oracles: a first-attempt success terminates
immediately with a single invocation. -/
theorem C1_retry_engine_witness :
    run_cli_with_retry (fun _ _ => (Result.Ok (CliData.obj "done")))
      (fun _ _ => Option.none) ["task", "list"] =
      ⟨.Ok (CliData.obj "done"), [["task", "list"]], []⟩ :=
  (C1_retry_engine (fun _ _ => (Result.Ok (CliData.obj "done")))
    (fun _ _ => Option.none) ["task", "list"]).2.1 (CliData.obj "done") rfl

/-- C2: if on a non-final attempt the repair request returns `can_fix=false`
or supplies no corrected command (`fix_cli_args` yields `none`),
`_run_cli_with_retry` aborts immediately with `Err` of the current error;
in particular a first-attempt failure whose first repair is unfixable makes
exactly one tool invocation in total. -/
theorem C2_abort_on_unfixable {α : Type} (tryCli : Nat → List String → Result α)
    (llmFix : List String → String → Option FixOutput) (cli_args : List String)
    (e : String)
    (h1 : tryCli 0 cli_args = .Err e)
    (h2 : fix_cli_args llmFix cli_args e = none) :
    run_cli_with_retry tryCli llmFix cli_args = ⟨.Err e, [cli_args], [(cli_args, e)]⟩ ∧
    (∀ fuel attempt args err, attempt ≠ MAX_CLI_RETRIES - 1 →
      tryCli attempt args = .Err err → fix_cli_args llmFix args err = none →
      retryLoop tryCli llmFix (fuel + 1) attempt args =
        ⟨.Err err, [args], [(args, err)]⟩) := by
  constructor
  · exact retryLoop_abort tryCli llmFix 2 0 cli_args e (by decide) h1 h2
  · intro fuel attempt args err hfin herr hfix
    exact retryLoop_abort tryCli llmFix fuel attempt args err hfin herr hfix

/-- Witness for C2 at concrete oracles: the CLI always fails with "boom" and
the repair LLM answers `can_fix=false`; the engine returns the error after a
single invocation and a single repair request. -/
theorem C2_abort_on_unfixable_witness :
    run_cli_with_retry (fun _ _ => (Result.Err "boom" : Result CliData))
      (fun _ _ => some ⟨false, Option.none⟩) ["task", "add", "Buy milk"] =
      ⟨.Err "boom", [["task", "add", "Buy milk"]],
        [(["task", "add", "Buy milk"], "boom")]⟩ :=
  (C2_abort_on_unfixable (fun _ _ => (Result.Err "boom" : Result CliData))
    (fun _ _ => some ⟨false, Option.none⟩) ["task", "add", "Buy milk"] "boom"
    rfl rfl).1

/-- C3: handling a `confirm` action with a (truthy) pending command executes
exactly that pending command via the retry engine (the invocation trace is
the engine's trace and starts with the pending argument vector; with a
first-attempt success it is exactly one invocation with that vector) and
clears `pending_command` on both the success and the failure path; `confirm`
with no pending command performs no tool invocation, leaves the state
unchanged and returns the "Nothing to confirm" response.  The direct UI
`confirm()` path invokes the tool with exactly the pending argument vector
once and clears the pending command on both outcomes. -/
theorem C3_confirm_execution (tryCli : Nat → List String → Result CliData)
    (llmFix : List String → String → Option FixOutput)
    (summarize : CliData → String) (jsonDump : CliData → String)
    (cliRun : List String → Result CliData)
    (s : TaskAgentState) (output : TaskAgentOutput)
    (hact : output.action = Action.confirm) :
    (∀ p, s.pending_command = some p → p ≠ [] →
      (handle_action tryCli llmFix summarize jsonDump (some s) output).state =
        some { s with pending_command := Option.none } ∧
      (handle_action tryCli llmFix summarize jsonDump (some s) output).invocations =
        (run_cli_with_retry tryCli llmFix p).invocations ∧
      (handle_action tryCli llmFix summarize jsonDump (some s) output).invocations.head? =
        some p) ∧
    (∀ p v, s.pending_command = some p → p ≠ [] → tryCli 0 p = .Ok v →
      (handle_action tryCli llmFix summarize jsonDump (some s) output).invocations = [p]) ∧
    ((s.pending_command = Option.none ∨ s.pending_command = some []) →
      handle_action tryCli llmFix summarize jsonDump (some s) output =
        ⟨some s, ⟨"Nothing to confirm. What would you like to do?",
          Option.none, Option.none⟩, []⟩) ∧
    (∀ p, s.pending_command = some p → p ≠ [] →
      (TaskAgent.confirm cliRun (some s)).invocations = [p] ∧
      (TaskAgent.confirm cliRun (some s)).state =
        some { s with pending_command := Option.none }) ∧
    ((s.pending_command = Option.none ∨ s.pending_command = some []) →
      TaskAgent.confirm cliRun (some s) =
        ⟨some s, ⟨"Nothing to confirm.", Option.none, Option.none⟩, []⟩) := by
  have hempty : ∀ p : List String, p ≠ [] → p.isEmpty = false := by
    intro p hp
    cases p with
    | nil => exact absurd rfl hp
    | cons a l => rfl
  refine ⟨?_, ?_, ?_, ?_, ?_⟩
  · intro p hp hne
    have hpe := hempty p hne
    simp only [handle_action, hact, hp]
    cases hr : (run_cli_with_retry tryCli llmFix p).result with
    | Ok v => simp [hr, optListTruthy, hpe, run_cli_with_retry_head tryCli llmFix p]
    | Err e => simp [hr, optListTruthy, hpe, run_cli_with_retry_head tryCli llmFix p]
  · intro p v hp hne hok
    have hpe := hempty p hne
    have hrun : run_cli_with_retry tryCli llmFix p = ⟨.Ok v, [p], []⟩ :=
      retryLoop_ok tryCli llmFix 2 0 p v hok
    simp [handle_action, hact, hp, optListTruthy, hpe, hrun]
  · intro hcase
    have htr : optListTruthy s.pending_command = false := by
      rcases hcase with h | h <;> simp [optListTruthy, h]
    simp [handle_action, hact, htr]
  · intro p hp hne
    have hpe := hempty p hne
    simp only [TaskAgent.confirm, hp]
    cases hr : cliRun p with
    | Ok v => simp [hr, optListTruthy, hpe]
    | Err e => simp [hr, optListTruthy, hpe]
  · intro hcase
    have htr : optListTruthy s.pending_command = false := by
      rcases hcase with h | h <;> simp [optListTruthy, h]
    simp [TaskAgent.confirm, htr]

/-- Witness for C3 at a concrete state and oracles: pending command
`["task", "add", "Buy milk"]`, CLI succeeding on the first attempt. -/
theorem C3_confirm_execution_witness :
    (⟨"", Action.confirm, Option.none⟩ : TaskAgentOutput).action = Action.confirm ∧
    (handle_action (fun _ _ => .Ok (CliData.obj "ok")) (fun _ _ => Option.none)
      (fun _ => "") (fun _ => "")
      (some { session_id := "sess", pending_command := some ["task", "add", "Buy milk"] })
      ⟨"", Action.confirm, Option.none⟩).invocations = [["task", "add", "Buy milk"]] :=
  ⟨rfl,
    (C3_confirm_execution (fun _ _ => .Ok (CliData.obj "ok")) (fun _ _ => Option.none)
      (fun _ => "") (fun _ => "") (fun _ => .Ok (CliData.obj "ok"))
      { session_id := "sess", pending_command := some ["task", "add", "Buy milk"] }
      ⟨"", Action.confirm, Option.none⟩ rfl).2.1
      ["task", "add", "Buy milk"] (CliData.obj "ok") rfl (by simp) rfl⟩

/-- C8 counterexample: `decline()` on a live agent state with no pending
command does NOT return the "Nothing to cancel." response the claim
requires; it returns the fixed "Cancelled. What would you like to do?"
text (the "Nothing to cancel." branch is reachable only with no state). -/
theorem C8_decline_counterexample :
    (TaskAgent.decline (some { session_id := "sess" })).2.text =
      "Cancelled. What would you like to do?" ∧
    (TaskAgent.decline (some { session_id := "sess" })).2.text ≠
      "Nothing to cancel." := by
  refine ⟨rfl, ?_⟩
  intro h
  simp [TaskAgent.decline] at h

/-- C8 (amended): a decline request on an agent state with no pending
command is a no-op that leaves the state unchanged and returns the fixed
"Cancelled. What would you like to do?" response; repeating it yields the
same response and the same state (idempotence).  The fixed "Nothing to
cancel." response occurs only on a falsy agent state.  The LLM-driven
`cancel` action with no pending command likewise leaves the state unchanged
and returns the LLM's response text. -/
theorem C8_decline_idempotent (tryCli : Nat → List String → Result CliData)
    (llmFix : List String → String → Option FixOutput)
    (summarize : CliData → String) (jsonDump : CliData → String)
    (s : TaskAgentState) (output : TaskAgentOutput)
    (hpend : s.pending_command = Option.none)
    (hact : output.action = Action.cancel) :
    TaskAgent.decline (some s) =
      (some s, ⟨"Cancelled. What would you like to do?", Option.none, Option.none⟩) ∧
    TaskAgent.decline (TaskAgent.decline (some s)).1 = TaskAgent.decline (some s) ∧
    TaskAgent.decline Option.none =
      (Option.none, ⟨"Nothing to cancel.", Option.none, Option.none⟩) ∧
    handle_action tryCli llmFix summarize jsonDump (some s) output =
      ⟨some s, ⟨output.response, Option.none, Option.none⟩, []⟩ := by
  have hs : { s with pending_command := Option.none } = s := by
    cases s
    simp_all
  refine ⟨?_, ?_, rfl, ?_⟩
  · simp [TaskAgent.decline, hs]
  · simp [TaskAgent.decline, hs]
  · simp [handle_action, hact, hs]

/-- Witness for C8 (amended) at a concrete state with nothing pending. -/
theorem C8_decline_idempotent_witness :
    TaskAgent.decline (some { session_id := "sess" }) =
      (some { session_id := "sess" },
        ⟨"Cancelled. What would you like to do?", Option.none, Option.none⟩) :=
  (C8_decline_idempotent (fun _ _ => .Ok (CliData.obj "ok")) (fun _ _ => Option.none)
    (fun _ => "") (fun _ => "") { session_id := "sess" }
    ⟨"ok", Action.cancel, Option.none⟩ rfl rfl).1

/-- C10: a `propose` action whose `cli_args` is absent or empty leaves
`pending_command` (and the whole state) unchanged, performs no tool
invocation and still returns the LLM's conversational response;
`pending_command` is (over)written by `propose` exactly when a non-empty
command is supplied. -/
theorem C10_propose_frame (tryCli : Nat → List String → Result CliData)
    (llmFix : List String → String → Option FixOutput)
    (summarize : CliData → String) (jsonDump : CliData → String)
    (s : TaskAgentState) (output : TaskAgentOutput)
    (hact : output.action = Action.propose) :
    ((output.cli_args = Option.none ∨ output.cli_args = some []) →
      handle_action tryCli llmFix summarize jsonDump (some s) output =
        ⟨some s, ⟨output.response, Option.none, Option.none⟩, []⟩) ∧
    (∀ args, output.cli_args = some args → args ≠ [] →
      handle_action tryCli llmFix summarize jsonDump (some s) output =
        ⟨some { s with pending_command := some args },
          ⟨output.response, Option.none, Option.none⟩, []⟩) := by
  constructor
  · intro hcase
    have htr : optListTruthy output.cli_args = false := by
      rcases hcase with h | h <;> simp [optListTruthy, h]
    simp [handle_action, hact, htr]
  · intro args hargs hne
    have hpe : args.isEmpty = false := by
      cases args with
      | nil => exact absurd rfl hne
      | cons a l => rfl
    simp [handle_action, hact, hargs, optListTruthy, hpe]

/-- Witness for C10: a `propose` with no `cli_args` leaves a state with a
pending command untouched and echoes the LLM response. -/
theorem C10_propose_frame_witness :
    handle_action (fun _ _ => .Ok (CliData.obj "ok")) (fun _ _ => Option.none)
      (fun _ => "") (fun _ => "")
      (some { session_id := "sess", pending_command := some ["task", "rm", "1"] })
      ⟨"What task?", Action.propose, Option.none⟩ =
      ⟨some { session_id := "sess", pending_command := some ["task", "rm", "1"] },
        ⟨"What task?", Option.none, Option.none⟩, []⟩ :=
  (C10_propose_frame (fun _ _ => .Ok (CliData.obj "ok")) (fun _ _ => Option.none)
    (fun _ => "") (fun _ => "")
    { session_id := "sess", pending_command := some ["task", "rm", "1"] }
    ⟨"What task?", Action.propose, Option.none⟩ rfl).1 (Or.inl rfl)

section MonitorLemmas

theorem SESSION_WARNING_lt_TIMEOUT : SESSION_WARNING_THRESHOLD < SESSION_TIMEOUT := by
  norm_num [SESSION_WARNING_THRESHOLD, SESSION_TIMEOUT]

theorem pollStep_break_none (now : ℚ) (sent : Bool) :
    pollStep now ⟨Option.none, sent⟩ = ([], ⟨Option.none, sent⟩, true) := rfl

theorem pollStep_break_zero (now : ℚ) (sent : Bool) :
    pollStep now ⟨some 0, sent⟩ = ([], ⟨some 0, sent⟩, true) := by
  simp [pollStep]

theorem pollStep_idle (now t : ℚ) (sent : Bool) (h0 : t ≠ 0)
    (hw : now - t < SESSION_WARNING_THRESHOLD) :
    pollStep now ⟨some t, sent⟩ = ([], ⟨some t, sent⟩, false) := by
  have hto : ¬(SESSION_TIMEOUT ≤ now - t) :=
    not_le.mpr (lt_trans hw SESSION_WARNING_lt_TIMEOUT)
  simp [pollStep, h0, not_le.mpr hw, hto]

theorem pollStep_warn (now t : ℚ) (h0 : t ≠ 0)
    (hw : SESSION_WARNING_THRESHOLD ≤ now - t) (hto : now - t < SESSION_TIMEOUT) :
    pollStep now ⟨some t, false⟩ =
      ([.sessionWarning (pythonInt (SESSION_TIMEOUT - (now - t)))], ⟨some t, true⟩, false) := by
  simp [pollStep, h0, hw, not_le.mpr hto]

theorem pollStep_warned_idle (now t : ℚ) (h0 : t ≠ 0) (hto : now - t < SESSION_TIMEOUT) :
    pollStep now ⟨some t, true⟩ = ([], ⟨some t, true⟩, false) := by
  simp [pollStep, h0, not_le.mpr hto]

theorem pollStep_timeout_warned (now t : ℚ) (h0 : t ≠ 0) (hto : SESSION_TIMEOUT ≤ now - t) :
    pollStep now ⟨some t, true⟩ =
      ([.sessionTimeout "inactivity" (now - t)], ⟨some t, true⟩, true) := by
  simp [pollStep, h0, hto]

theorem pollStep_timeout_unwarned (now t : ℚ) (h0 : t ≠ 0)
    (hto : SESSION_TIMEOUT ≤ now - t) :
    pollStep now ⟨some t, false⟩ =
      ([.sessionWarning (pythonInt (SESSION_TIMEOUT - (now - t))),
        .sessionTimeout "inactivity" (now - t)], ⟨some t, true⟩, true) := by
  have hw : SESSION_WARNING_THRESHOLD ≤ now - t :=
    le_trans (le_of_lt SESSION_WARNING_lt_TIMEOUT) hto
  simp [pollStep, h0, hw, hto]

theorem runMonitor_quiet : ∀ (times : List ℚ) (t : ℚ) (sent : Bool), t ≠ 0 →
    (∀ now ∈ times, now - t < SESSION_WARNING_THRESHOLD) →
    runMonitor ⟨some t, sent⟩ times = [] := by
  intro times
  induction times with
  | nil => intro t sent _ _; rfl
  | cons now rest ih =>
    intro t sent h0 hall
    rw [runMonitor, pollStep_idle now t sent h0 (hall now (by simp))]
    simpa using ih t sent h0 fun x hx => hall x (by simp [hx])

theorem countWarnings_sent_zero : ∀ (times : List ℚ) (last : Option ℚ),
    countWarnings (runMonitor ⟨last, true⟩ times) = 0 := by
  intro times
  induction times with
  | nil => intro last; rfl
  | cons now rest ih =>
    intro last
    cases last with
    | none => rw [runMonitor, pollStep_break_none]; rfl
    | some t =>
      by_cases h0 : t = 0
      · subst h0; rw [runMonitor, pollStep_break_zero]; rfl
      · by_cases hto : SESSION_TIMEOUT ≤ now - t
        · rw [runMonitor, pollStep_timeout_warned now t h0 hto]
          simp [countWarnings]
        · rw [runMonitor, pollStep_warned_idle now t h0 (not_le.mp hto)]
          simpa [countWarnings] using ih (some t)

theorem countWarnings_le_one : ∀ (times : List ℚ) (s : TimeoutState),
    countWarnings (runMonitor s times) ≤ 1 := by
  intro times
  induction times with
  | nil => intro s; simp [runMonitor, countWarnings]
  | cons now rest ih =>
    intro s
    obtain ⟨last, sent⟩ := s
    cases last with
    | none => rw [runMonitor, pollStep_break_none]; simp [countWarnings]
    | some t =>
      by_cases h0 : t = 0
      · subst h0; rw [runMonitor, pollStep_break_zero]; simp [countWarnings]
      · cases sent with
        | true =>
          by_cases hto : SESSION_TIMEOUT ≤ now - t
          · rw [runMonitor, pollStep_timeout_warned now t h0 hto]
            simp [countWarnings]
          · rw [runMonitor, pollStep_warned_idle now t h0 (not_le.mp hto)]
            have hz := countWarnings_sent_zero rest (some t)
            simp only [countWarnings] at hz ⊢
            simp [hz]
        | false =>
          by_cases hto : SESSION_TIMEOUT ≤ now - t
          · rw [runMonitor, pollStep_timeout_unwarned now t h0 hto]
            simp [countWarnings]
          · by_cases hw : SESSION_WARNING_THRESHOLD ≤ now - t
            · rw [runMonitor, pollStep_warn now t h0 hw (not_le.mp hto)]
              have hz := countWarnings_sent_zero rest (some t)
              simp only [countWarnings] at hz ⊢
              simp [hz]
            · rw [runMonitor, pollStep_idle now t false h0 (not_le.mp hw)]
              simpa using ih ⟨some t, false⟩

theorem countWarnings_fires : ∀ (times : List ℚ) (t : ℚ), t ≠ 0 →
    (∃ now ∈ times, SESSION_WARNING_THRESHOLD ≤ now - t) →
    countWarnings (runMonitor ⟨some t, false⟩ times) = 1 := by
  intro times
  induction times with
  | nil => intro t _ hex; simp at hex
  | cons now rest ih =>
    intro t h0 hex
    by_cases hw : SESSION_WARNING_THRESHOLD ≤ now - t
    · by_cases hto : SESSION_TIMEOUT ≤ now - t
      · rw [runMonitor, pollStep_timeout_unwarned now t h0 hto]
        simp [countWarnings]
      · rw [runMonitor, pollStep_warn now t h0 hw (not_le.mp hto)]
        have hz := countWarnings_sent_zero rest (some t)
        simp only [countWarnings] at hz ⊢
        simp [hz]
    · have hto : ¬(SESSION_TIMEOUT ≤ now - t) := by
        intro hle
        exact hw (le_trans (le_of_lt SESSION_WARNING_lt_TIMEOUT) hle)
      rw [runMonitor, pollStep_idle now t false h0 (not_le.mp hw)]
      simp only [ite_false, List.nil_append]
      apply ih t h0
      rcases hex with ⟨x, hx, hxw⟩
      rcases List.mem_cons.mp hx with hx1 | hx2
      · exact absurd (hx1 ▸ hxw) hw
      · exact ⟨x, hx2, hxw⟩

theorem countTimeouts_le_one : ∀ (times : List ℚ) (s : TimeoutState),
    countTimeouts (runMonitor s times) ≤ 1 := by
  intro times
  induction times with
  | nil => intro s; simp [runMonitor, countTimeouts]
  | cons now rest ih =>
    intro s
    obtain ⟨last, sent⟩ := s
    cases last with
    | none => rw [runMonitor, pollStep_break_none]; simp [countTimeouts]
    | some t =>
      by_cases h0 : t = 0
      · subst h0; rw [runMonitor, pollStep_break_zero]; simp [countTimeouts]
      · cases sent with
        | true =>
          by_cases hto : SESSION_TIMEOUT ≤ now - t
          · rw [runMonitor, pollStep_timeout_warned now t h0 hto]
            simp [countTimeouts]
          · rw [runMonitor, pollStep_warned_idle now t h0 (not_le.mp hto)]
            simpa using ih ⟨some t, true⟩
        | false =>
          by_cases hto : SESSION_TIMEOUT ≤ now - t
          · rw [runMonitor, pollStep_timeout_unwarned now t h0 hto]
            simp [countTimeouts]
          · by_cases hw : SESSION_WARNING_THRESHOLD ≤ now - t
            · rw [runMonitor, pollStep_warn now t h0 hw (not_le.mp hto)]
              simp only [ite_false, countTimeouts, List.countP_append, List.countP_cons]
              have := ih ⟨some t, true⟩
              simp only [countTimeouts] at this
              simpa using this
            · rw [runMonitor, pollStep_idle now t false h0 (not_le.mp hw)]
              simpa using ih ⟨some t, false⟩

theorem countTimeouts_fires : ∀ (times : List ℚ) (t : ℚ) (sent : Bool), t ≠ 0 →
    (∃ now ∈ times, SESSION_TIMEOUT ≤ now - t) →
    countTimeouts (runMonitor ⟨some t, sent⟩ times) = 1 := by
  intro times
  induction times with
  | nil => intro t sent _ hex; simp at hex
  | cons now rest ih =>
    intro t sent h0 hex
    by_cases hto : SESSION_TIMEOUT ≤ now - t
    · cases sent with
      | true =>
        rw [runMonitor, pollStep_timeout_warned now t h0 hto]
        simp [countTimeouts]
      | false =>
        rw [runMonitor, pollStep_timeout_unwarned now t h0 hto]
        simp [countTimeouts]
    · have hrest : ∃ x ∈ rest, SESSION_TIMEOUT ≤ x - t := by
        rcases hex with ⟨x, hx, hxw⟩
        rcases List.mem_cons.mp hx with hx1 | hx2
        · exact absurd (hx1 ▸ hxw) hto
        · exact ⟨x, hx2, hxw⟩
      cases sent with
      | true =>
        rw [runMonitor, pollStep_warned_idle now t h0 (not_le.mp hto)]
        simpa using ih t true h0 hrest
      | false =>
        by_cases hw : SESSION_WARNING_THRESHOLD ≤ now - t
        · rw [runMonitor, pollStep_warn now t h0 hw (not_le.mp hto)]
          have := ih t true h0 hrest
          simp only [countTimeouts] at this ⊢
          simpa using this
        · rw [runMonitor, pollStep_idle now t false h0 (not_le.mp hw)]
          simpa using ih t false h0 hrest

theorem runMonitor_stops : ∀ (times extra : List ℚ) (t : ℚ) (sent : Bool), t ≠ 0 →
    (∃ now ∈ times, SESSION_TIMEOUT ≤ now - t) →
    runMonitor ⟨some t, sent⟩ (times ++ extra) = runMonitor ⟨some t, sent⟩ times := by
  intro times
  induction times with
  | nil => intro extra t sent _ hex; simp at hex
  | cons now rest ih =>
    intro extra t sent h0 hex
    by_cases hto : SESSION_TIMEOUT ≤ now - t
    · cases sent with
      | true =>
        rw [List.cons_append, runMonitor, pollStep_timeout_warned now t h0 hto,
          runMonitor, pollStep_timeout_warned now t h0 hto]
        rfl
      | false =>
        rw [List.cons_append, runMonitor, pollStep_timeout_unwarned now t h0 hto,
          runMonitor, pollStep_timeout_unwarned now t h0 hto]
        rfl
    · have hrest : ∃ x ∈ rest, SESSION_TIMEOUT ≤ x - t := by
        rcases hex with ⟨x, hx, hxw⟩
        rcases List.mem_cons.mp hx with hx1 | hx2
        · exact absurd (hx1 ▸ hxw) hto
        · exact ⟨x, hx2, hxw⟩
      cases sent with
      | true =>
        rw [List.cons_append, runMonitor, pollStep_warned_idle now t h0 (not_le.mp hto),
          runMonitor, pollStep_warned_idle now t h0 (not_le.mp hto)]
        simp [ih extra t true h0 hrest]
      | false =>
        by_cases hw : SESSION_WARNING_THRESHOLD ≤ now - t
        · rw [List.cons_append, runMonitor, pollStep_warn now t h0 hw (not_le.mp hto),
            runMonitor, pollStep_warn now t h0 hw (not_le.mp hto)]
          simp [ih extra t true h0 hrest]
        · rw [List.cons_append, runMonitor, pollStep_idle now t false h0 (not_le.mp hw),
            runMonitor, pollStep_idle now t false h0 (not_le.mp hw)]
          simp [ih extra t false h0 hrest]

end MonitorLemmas

/-- C4: for a freshly started monitor (any non-zero start time) observed over
any schedule of poll times with no intervening turn-completion event:
nothing is emitted while inactivity stays below the warning threshold; at
most one warning is ever emitted, and exactly one once some poll sees
inactivity reach the warning threshold; a sub-timeout warning poll carries
`int(SESSION_TIMEOUT - elapsed)` remaining seconds and sets the
warning-sent flag; at most one timeout is ever emitted, exactly one once
some poll sees inactivity reach the timeout threshold, and from then on the
monitor has terminated: extending the schedule emits nothing further. -/
theorem C4_session_monitor (t0 : ℚ) (times : List ℚ) (ht : t0 ≠ 0) :
    ((∀ now ∈ times, now - t0 < SESSION_WARNING_THRESHOLD) →
      runMonitor (start_session_timer t0) times = []) ∧
    countWarnings (runMonitor (start_session_timer t0) times) ≤ 1 ∧
    ((∃ now ∈ times, SESSION_WARNING_THRESHOLD ≤ now - t0) →
      countWarnings (runMonitor (start_session_timer t0) times) = 1) ∧
    (∀ now, SESSION_WARNING_THRESHOLD ≤ now - t0 → now - t0 < SESSION_TIMEOUT →
      pollStep now (start_session_timer t0) =
        ([.sessionWarning (pythonInt (SESSION_TIMEOUT - (now - t0)))],
          ⟨some t0, true⟩, false)) ∧
    countTimeouts (runMonitor (start_session_timer t0) times) ≤ 1 ∧
    ((∃ now ∈ times, SESSION_TIMEOUT ≤ now - t0) →
      countTimeouts (runMonitor (start_session_timer t0) times) = 1) ∧
    (∀ extra, (∃ now ∈ times, SESSION_TIMEOUT ≤ now - t0) →
      runMonitor (start_session_timer t0) (times ++ extra) =
        runMonitor (start_session_timer t0) times) := by
  refine ⟨?_, ?_, ?_, ?_, ?_, ?_, ?_⟩
  · intro hall
    exact runMonitor_quiet times t0 false ht hall
  · exact countWarnings_le_one times _
  · intro hex
    exact countWarnings_fires times t0 ht hex
  · intro now hw hto
    exact pollStep_warn now t0 ht hw hto
  · exact countTimeouts_le_one times _
  · intro hex
    exact countTimeouts_fires times t0 false ht hex
  · intro extra hex
    exact runMonitor_stops times extra t0 false ht hex

/-- Witness for C4: monitor started at time 1; the poll at 57 (elapsed 56)
yields the single warning, the poll at 62 (elapsed 61) the single timeout. -/
theorem C4_session_monitor_witness :
    countWarnings (runMonitor (start_session_timer 1) [57, 62]) = 1 ∧
    countTimeouts (runMonitor (start_session_timer 1) [57, 62]) = 1 :=
  ⟨(C4_session_monitor 1 [57, 62] (by norm_num)).2.2.1
      ⟨57, by simp, by norm_num [SESSION_WARNING_THRESHOLD]⟩,
    (C4_session_monitor 1 [57, 62] (by norm_num)).2.2.2.2.2.1
      ⟨62, by simp, by norm_num [SESSION_TIMEOUT]⟩⟩

/-- C5: a turn-completion event resets `last_activity_time` to the event
time and clears the warning-sent flag; from that reset point the monitor
emits nothing (in particular, a pending timeout is suppressed) as long as
every poll sees inactivity below the warning threshold; any notification
after the reset requires some poll to see a full warning-threshold window
elapse from the reset point, and once that happens exactly one new warning
fires. -/
theorem C5_turn_reset (s : TimeoutState) (r : ℚ) (times : List ℚ) (hr : r ≠ 0) :
    on_turn_completed r s = ⟨some r, false⟩ ∧
    ((∀ now ∈ times, now - r < SESSION_WARNING_THRESHOLD) →
      runMonitor (on_turn_completed r s) times = []) ∧
    (runMonitor (on_turn_completed r s) times ≠ [] →
      ∃ now ∈ times, SESSION_WARNING_THRESHOLD ≤ now - r) ∧
    ((∃ now ∈ times, SESSION_WARNING_THRESHOLD ≤ now - r) →
      countWarnings (runMonitor (on_turn_completed r s) times) = 1) := by
  refine ⟨rfl, ?_, ?_, ?_⟩
  · intro hall
    exact runMonitor_quiet times r false hr hall
  · intro hne
    by_contra hnot
    push_neg at hnot
    exact hne (runMonitor_quiet times r false hr hnot)
  · intro hex
    exact countWarnings_fires times r hr hex

/-- Witness for C5: a state that has already sent its warning is reset at
time 100; the poll at 120 (elapsed 20) emits nothing. -/
theorem C5_turn_reset_witness :
    on_turn_completed 100 ⟨some 1, true⟩ = (⟨some 100, false⟩ : TimeoutState) ∧
    runMonitor (on_turn_completed 100 ⟨some 1, true⟩) [120] = [] :=
  ⟨(C5_turn_reset ⟨some 1, true⟩ 100 [120] (by norm_num)).1,
    (C5_turn_reset ⟨some 1, true⟩ 100 [120] (by norm_num)).2.1
      (by
        intro x hx
        simp only [List.mem_singleton] at hx
        subst hx
        norm_num [SESSION_WARNING_THRESHOLD])⟩

section RouterLemmas

variable (classify : String → Except String IntentClassification)
variable (llmOut : Option TaskAgentOutput)
variable (tryCli : Nat → List String → Result CliData)
variable (llmFix : String → String → Option FixOutput)

theorem process_input_sticky_task
    (llmOut : Option TaskAgentOutput) (tryCli : Nat → List String → Result CliData)
    (llmFix : List String → String → Option FixOutput)
    (summarize : CliData → String) (jsonDump : CliData → String)
    (basProc : String → Option AgentResponse)
    (cs : ChatState) (text : String) (h : taskSticky cs = true) :
    process_input classify llmOut tryCli llmFix summarize jsonDump basProc cs text =
      ⟨{ cs with
          current_intent := some "task_management",
          current_response_type := "task_response",
          task_agent := (route_to_task_agent llmOut tryCli llmFix summarize jsonDump
            cs.session_id cs.task_agent text).1 },
        (route_to_task_agent llmOut tryCli llmFix summarize jsonDump
          cs.session_id cs.task_agent text).2.1, 0,
        (route_to_task_agent llmOut tryCli llmFix summarize jsonDump
          cs.session_id cs.task_agent text).2.2⟩ := by
  simp only [process_input, h, if_true]
  rcases hr : route_to_task_agent llmOut tryCli llmFix summarize jsonDump
    cs.session_id cs.task_agent text with ⟨ta, r, tr⟩
  simp [hr, Intent.toStr]

theorem process_input_sticky_basidian
    (llmOut : Option TaskAgentOutput) (tryCli : Nat → List String → Result CliData)
    (llmFix : List String → String → Option FixOutput)
    (summarize : CliData → String) (jsonDump : CliData → String)
    (basProc : String → Option AgentResponse)
    (cs : ChatState) (text : String)
    (h1 : taskSticky cs = false) (h2 : basidianSticky cs = true) :
    process_input classify llmOut tryCli llmFix summarize jsonDump basProc cs text =
      ⟨{ cs with
          current_intent := some "notes",
          current_response_type := "notes_response",
          basidian_agent := (route_to_basidian_agent basProc cs.basidian_agent text).1 },
        (route_to_basidian_agent basProc cs.basidian_agent text).2, 0, []⟩ := by
  simp only [process_input, h1, h2, Bool.false_eq_true, if_false, if_true]
  rcases hr : route_to_basidian_agent basProc cs.basidian_agent text with ⟨ba, r⟩
  simp [hr, Intent.toStr]

theorem process_input_classifies
    (llmOut : Option TaskAgentOutput) (tryCli : Nat → List String → Result CliData)
    (llmFix : List String → String → Option FixOutput)
    (summarize : CliData → String) (jsonDump : CliData → String)
    (basProc : String → Option AgentResponse)
    (cs : ChatState) (text : String)
    (h1 : taskSticky cs = false) (h2 : basidianSticky cs = false) :
    (process_input classify llmOut tryCli llmFix summarize jsonDump basProc
      cs text).classifierCalls = 1 := by
  simp only [process_input, h1, h2, Bool.false_eq_true, if_false]
  cases hcls : classify text with
  | error e => rfl
  | ok c =>
    repeat' split
    all_goals rfl

theorem route_to_task_agent_exit
    (tryCli : Nat → List String → Result CliData)
    (llmFix : List String → String → Option FixOutput)
    (summarize : CliData → String) (jsonDump : CliData → String)
    (out : TaskAgentOutput) (hexit : out.action = Action.exit)
    (sid : String) (ta : Option TaskAgentState) (text : String) :
    (route_to_task_agent (some out) tryCli llmFix summarize jsonDump sid ta text).1 =
      Option.none := by
  cases ta with
  | none =>
    simp [route_to_task_agent, process_message, handle_action, hexit,
      AgentResponse.should_exit]
  | some s =>
    simp [route_to_task_agent, process_message, handle_action, hexit,
      AgentResponse.should_exit]

end RouterLemmas

/-- C7: if a sub-agent handle exists, is sticky-active and its kind is not
excluded, `_process_input` forwards the text to that sub-agent without
invoking the intent classifier and tags the output metadata with that
sub-agent's intent and response-type; otherwise the intent classifier is
invoked (exactly once). -/
theorem C7_sticky_bypass (classify : String → Except String IntentClassification)
    (llmOut : Option TaskAgentOutput) (tryCli : Nat → List String → Result CliData)
    (llmFix : List String → String → Option FixOutput)
    (summarize : CliData → String) (jsonDump : CliData → String)
    (basProc : String → Option AgentResponse)
    (cs : ChatState) (text : String) :
    (taskSticky cs = true →
      (process_input classify llmOut tryCli llmFix summarize jsonDump basProc
        cs text).classifierCalls = 0 ∧
      (process_input classify llmOut tryCli llmFix summarize jsonDump basProc
        cs text).chat.current_intent = some "task_management" ∧
      (process_input classify llmOut tryCli llmFix summarize jsonDump basProc
        cs text).chat.current_response_type = "task_response" ∧
      (process_input classify llmOut tryCli llmFix summarize jsonDump basProc
        cs text).result = (route_to_task_agent llmOut tryCli llmFix summarize jsonDump
          cs.session_id cs.task_agent text).2.1) ∧
    (taskSticky cs = false → basidianSticky cs = true →
      (process_input classify llmOut tryCli llmFix summarize jsonDump basProc
        cs text).classifierCalls = 0 ∧
      (process_input classify llmOut tryCli llmFix summarize jsonDump basProc
        cs text).chat.current_intent = some "notes" ∧
      (process_input classify llmOut tryCli llmFix summarize jsonDump basProc
        cs text).chat.current_response_type = "notes_response" ∧
      (process_input classify llmOut tryCli llmFix summarize jsonDump basProc
        cs text).result = (route_to_basidian_agent basProc cs.basidian_agent text).2) ∧
    (taskSticky cs = false → basidianSticky cs = false →
      (process_input classify llmOut tryCli llmFix summarize jsonDump basProc
        cs text).classifierCalls = 1) := by
  refine ⟨?_, ?_, ?_⟩
  · intro h
    rw [process_input_sticky_task classify llmOut tryCli llmFix summarize jsonDump
      basProc cs text h]
    exact ⟨rfl, rfl, rfl, rfl⟩
  · intro h1 h2
    rw [process_input_sticky_basidian classify llmOut tryCli llmFix summarize jsonDump
      basProc cs text h1 h2]
    exact ⟨rfl, rfl, rfl, rfl⟩
  · intro h1 h2
    exact process_input_classifies classify llmOut tryCli llmFix summarize jsonDump
      basProc cs text h1 h2

/-- Witness for C7: with an active, non-excluded task-agent handle the
classifier is bypassed and the metadata tagged; with no handle at all the
classifier runs once. -/
theorem C7_sticky_bypass_witness :
    ((process_input (fun _ => Except.error "x") Option.none
        (fun _ _ => .Ok (CliData.obj "d")) (fun _ _ => Option.none)
        (fun _ => "") (fun _ => "") (fun _ => Option.none)
        ⟨"s", [], some ⟨"s", [], true, Option.none⟩, Option.none, Option.none,
          "llm_response"⟩ "hi").classifierCalls = 0 ∧
      (process_input (fun _ => Except.error "x") Option.none
        (fun _ _ => .Ok (CliData.obj "d")) (fun _ _ => Option.none)
        (fun _ => "") (fun _ => "") (fun _ => Option.none)
        ⟨"s", [], some ⟨"s", [], true, Option.none⟩, Option.none, Option.none,
          "llm_response"⟩ "hi").chat.current_response_type = "task_response") ∧
    (process_input (fun _ => Except.error "x") Option.none
      (fun _ _ => .Ok (CliData.obj "d")) (fun _ _ => Option.none)
      (fun _ => "") (fun _ => "") (fun _ => Option.none)
      ⟨"s", [], Option.none, Option.none, Option.none, "llm_response"⟩
      "hi").classifierCalls = 1 :=
  ⟨⟨((C7_sticky_bypass (fun _ => Except.error "x") Option.none
        (fun _ _ => .Ok (CliData.obj "d")) (fun _ _ => Option.none)
        (fun _ => "") (fun _ => "") (fun _ => Option.none)
        ⟨"s", [], some ⟨"s", [], true, Option.none⟩, Option.none, Option.none,
          "llm_response"⟩ "hi").1 rfl).1,
      ((C7_sticky_bypass (fun _ => Except.error "x") Option.none
        (fun _ _ => .Ok (CliData.obj "d")) (fun _ _ => Option.none)
        (fun _ => "") (fun _ => "") (fun _ => Option.none)
        ⟨"s", [], some ⟨"s", [], true, Option.none⟩, Option.none, Option.none,
          "llm_response"⟩ "hi").1 rfl).2.2.1⟩,
    (C7_sticky_bypass (fun _ => Except.error "x") Option.none
      (fun _ _ => .Ok (CliData.obj "d")) (fun _ _ => Option.none)
      (fun _ => "") (fun _ => "") (fun _ => Option.none)
      ⟨"s", [], Option.none, Option.none, Option.none, "llm_response"⟩
      "hi").2.2 rfl rfl⟩

/-- C9: when no sticky sub-agent captures the turn and the intent classifier
raises, `_process_input` returns `Err("Configuration error: ...")`, sets the
response-type metadata to "error" and the intent to none, calls the
classifier exactly once (no retry at this layer), performs no tool
invocation, and `on_user_turn_completed` speaks exactly that error text. -/
theorem C9_classifier_failure (classify : String → Except String IntentClassification)
    (llmOut : Option TaskAgentOutput) (tryCli : Nat → List String → Result CliData)
    (llmFix : List String → String → Option FixOutput)
    (summarize : CliData → String) (jsonDump : CliData → String)
    (basProc : String → Option AgentResponse)
    (cs : ChatState) (text e : String)
    (h1 : taskSticky cs = false) (h2 : basidianSticky cs = false)
    (hcls : classify text = Except.error e) :
    process_input classify llmOut tryCli llmFix summarize jsonDump basProc cs text =
      ⟨{ cs with current_intent := Option.none, current_response_type := "error" },
        .Err ("Configuration error: " ++ e), 1, []⟩ ∧
    (on_user_turn_completed classify llmOut tryCli llmFix summarize jsonDump basProc
      cs text).2 = some ("Configuration error: " ++ e) := by
  have hp : process_input classify llmOut tryCli llmFix summarize jsonDump basProc
      cs text =
      ⟨{ cs with current_intent := Option.none, current_response_type := "error" },
        .Err ("Configuration error: " ++ e), 1, []⟩ := by
    simp only [process_input, h1, h2, Bool.false_eq_true, if_false, hcls]
  refine ⟨hp, ?_⟩
  simp only [on_user_turn_completed, hp]

/-- Witness for C9 at a session with no sub-agent handles and a classifier
that raises "boom". -/
theorem C9_classifier_failure_witness :
    (on_user_turn_completed (fun _ => Except.error "boom") Option.none
      (fun _ _ => .Ok (CliData.obj "d")) (fun _ _ => Option.none)
      (fun _ => "") (fun _ => "") (fun _ => Option.none)
      ⟨"s", [], Option.none, Option.none, Option.none, "llm_response"⟩ "hi").2 =
      some ("Configuration error: " ++ "boom") :=
  (C9_classifier_failure (fun _ => Except.error "boom") Option.none
    (fun _ _ => .Ok (CliData.obj "d")) (fun _ _ => Option.none)
    (fun _ => "") (fun _ => "") (fun _ => Option.none)
    ⟨"s", [], Option.none, Option.none, Option.none, "llm_response"⟩ "hi" "boom"
    rfl rfl rfl).2

/-- C6: when the task sub-agent's structured output is an `exit` action, the
handler clears the sticky flag (state becomes inactive) and signals exit
("user_exit"); the router then discards the handle (`task_agent = None`),
the sticky condition no longer holds, and the very next message — for any
oracles — is routed through intent classification (exactly one classifier
call) rather than forwarded to that sub-agent. -/
theorem C6_exit_clears_sticky (classify : String → Except String IntentClassification)
    (tryCli : Nat → List String → Result CliData)
    (llmFix : List String → String → Option FixOutput)
    (summarize : CliData → String) (jsonDump : CliData → String)
    (basProc : String → Option AgentResponse)
    (classify2 : String → Except String IntentClassification)
    (llmOut2 : Option TaskAgentOutput) (tryCli2 : Nat → List String → Result CliData)
    (llmFix2 : List String → String → Option FixOutput)
    (summarize2 : CliData → String) (jsonDump2 : CliData → String)
    (basProc2 : String → Option AgentResponse)
    (cs : ChatState) (text next : String) (out : TaskAgentOutput)
    (hsticky : taskSticky cs = true)
    (hbas : basidianSticky cs = false)
    (hexit : out.action = Action.exit) :
    (∀ s : TaskAgentState,
      (handle_action tryCli llmFix summarize jsonDump (some s) out).state =
        some { s with active := false } ∧
      (handle_action tryCli llmFix summarize jsonDump (some s) out).response.exit_reason =
        some "user_exit") ∧
    (process_input classify (some out) tryCli llmFix summarize jsonDump basProc
      cs text).chat.task_agent = Option.none ∧
    taskSticky (process_input classify (some out) tryCli llmFix summarize jsonDump
      basProc cs text).chat = false ∧
    (process_input classify2 llmOut2 tryCli2 llmFix2 summarize2 jsonDump2 basProc2
      (process_input classify (some out) tryCli llmFix summarize jsonDump basProc
        cs text).chat next).classifierCalls = 1 := by
  have hchat := process_input_sticky_task classify (some out) tryCli llmFix
    summarize jsonDump basProc cs text hsticky
  have hnone := route_to_task_agent_exit tryCli llmFix summarize jsonDump out hexit
    cs.session_id cs.task_agent text
  have hta : (process_input classify (some out) tryCli llmFix summarize jsonDump
      basProc cs text).chat.task_agent = Option.none := by
    rw [hchat]
    exact hnone
  have htask2 : taskSticky (process_input classify (some out) tryCli llmFix summarize
      jsonDump basProc cs text).chat = false := by
    simp only [taskSticky, hta]
    simp
  have hbas2 : basidianSticky (process_input classify (some out) tryCli llmFix
      summarize jsonDump basProc cs text).chat = false := by
    rw [hchat]
    simp only [basidianSticky] at hbas ⊢
    exact hbas
  refine ⟨?_, hta, htask2, ?_⟩
  · intro s
    constructor
    · simp [handle_action, hexit]
    · simp [handle_action, hexit]
  · exact process_input_classifies classify2 llmOut2 tryCli2 llmFix2 summarize2
      jsonDump2 basProc2 _ next htask2 hbas2

/-- Witness for C6: a session whose task agent is sticky-active receives an
exit-action turn; afterwards the handle is gone and the next message incurs
one classifier call. -/
theorem C6_exit_clears_sticky_witness :
    (process_input (fun _ => Except.error "x") (some ⟨"bye", Action.exit, Option.none⟩)
      (fun _ _ => .Ok (CliData.obj "d")) (fun _ _ => Option.none)
      (fun _ => "") (fun _ => "") (fun _ => Option.none)
      ⟨"s", [], some ⟨"s", [], true, Option.none⟩, Option.none, Option.none,
        "llm_response"⟩ "done").chat.task_agent = Option.none ∧
    (process_input (fun _ => Except.error "x") Option.none
      (fun _ _ => .Ok (CliData.obj "d")) (fun _ _ => Option.none)
      (fun _ => "") (fun _ => "") (fun _ => Option.none)
      (process_input (fun _ => Except.error "x") (some ⟨"bye", Action.exit, Option.none⟩)
        (fun _ _ => .Ok (CliData.obj "d")) (fun _ _ => Option.none)
        (fun _ => "") (fun _ => "") (fun _ => Option.none)
        ⟨"s", [], some ⟨"s", [], true, Option.none⟩, Option.none, Option.none,
          "llm_response"⟩ "done").chat "next").classifierCalls = 1 :=
  ⟨(C6_exit_clears_sticky (fun _ => Except.error "x")
      (fun _ _ => .Ok (CliData.obj "d")) (fun _ _ => Option.none)
      (fun _ => "") (fun _ => "") (fun _ => Option.none)
      (fun _ => Except.error "x") Option.none
      (fun _ _ => .Ok (CliData.obj "d")) (fun _ _ => Option.none)
      (fun _ => "") (fun _ => "") (fun _ => Option.none)
      ⟨"s", [], some ⟨"s", [], true, Option.none⟩, Option.none, Option.none,
        "llm_response"⟩ "done" "next" ⟨"bye", Action.exit, Option.none⟩
      rfl rfl rfl).2.1,
    (C6_exit_clears_sticky (fun _ => Except.error "x")
      (fun _ _ => .Ok (CliData.obj "d")) (fun _ _ => Option.none)
      (fun _ => "") (fun _ => "") (fun _ => Option.none)
      (fun _ => Except.error "x") Option.none
      (fun _ _ => .Ok (CliData.obj "d")) (fun _ _ => Option.none)
      (fun _ => "") (fun _ => "") (fun _ => Option.none)
      ⟨"s", [], some ⟨"s", [], true, Option.none⟩, Option.none, Option.none,
        "llm_response"⟩ "done" "next" ⟨"bye", Action.exit, Option.none⟩
      rfl rfl rfl).2.2.2⟩

end Bro
